import Mathlib

/-!
Verification of the mars-tokenomics-api data pipeline.

This file gives a shallow embedding of the TypeScript sources:

* `src/src/services/validationService.ts` (absolute-bounds and comparative
  validation, fallback-record construction),
* `src/src/services/dataFetcher.ts` (retrying fetcher, per-source fetches,
  aggregation, balance normalization),
* `pages/api/tokenomics.ts` (read endpoint status policy),
* `pages/api/cron/index-data.ts` and its revised copy (daily indexing
  orchestration), and
* the storage key discipline of `src/src/services/storageService.ts`.

Modelling conventions:

* JavaScript numbers are modelled by `JSNum`: an exact rational, or one of
  the IEEE-754 special values NaN, plus infinity, minus infinity.  The
  special values matter here: the validator divides by a recomputed USD
  value that can be zero, and `parseFloat` of a malformed string is NaN,
  and both propagate through comparisons exactly as in JavaScript
  (every comparison involving NaN is false).  Finite doubles are idealized
  as exact rationals; the claims under study are 1 percent / 50 percent
  tolerance claims, far above double rounding error.
* Record fields that are always produced from JSON numeric literals
  (`price_usd`, `on_chain_liquidity_usd`) are plain rationals; the
  USD-derived fields, which the code recomputes via `parseFloat` of a
  string, are `JSNum` so that the embedding does not have to assume the
  strings are well formed.
* Fallible operations return `FetchResult`, mirroring the
  success/data/error result objects of the source.
* External I/O (HTTP responses, the blob store, the clock) enters as
  explicit parameters: a fetch becomes a `FetchResult` argument, the store
  becomes an association list keyed by file name, attempt outcomes of the
  retry loop become a function from attempt number to `Except`.
-/

/-- A JavaScript number: NaN, one of the two infinities, or a finite value
(idealized as an exact rational). -/
inductive JSNum where
  | nan : JSNum
  | posInf : JSNum
  | negInf : JSNum
  | num (q : ℚ) : JSNum
deriving DecidableEq

namespace JSNum

/-- JavaScript subtraction on numbers, restricted to the value classes. -/
def sub : JSNum → JSNum → JSNum
  | nan, _ => nan
  | _, nan => nan
  | posInf, posInf => nan
  | posInf, _ => posInf
  | negInf, negInf => nan
  | negInf, _ => negInf
  | num _, posInf => negInf
  | num _, negInf => posInf
  | num a, num b => num (a - b)

/-- JavaScript multiplication on numbers. -/
def mul : JSNum → JSNum → JSNum
  | nan, _ => nan
  | _, nan => nan
  | posInf, posInf => posInf
  | posInf, negInf => negInf
  | negInf, posInf => negInf
  | negInf, negInf => posInf
  | posInf, num b => if 0 < b then posInf else if b < 0 then negInf else nan
  | num a, posInf => if 0 < a then posInf else if a < 0 then negInf else nan
  | negInf, num b => if 0 < b then negInf else if b < 0 then posInf else nan
  | num a, negInf => if 0 < a then negInf else if a < 0 then posInf else nan
  | num a, num b => num (a * b)

/-- JavaScript division on numbers.  Division of a nonzero finite value by
zero yields an infinity, and 0 / 0 yields NaN; this is the behaviour the
validator relies on when the expected USD value is zero.  The zero divisor
is treated as positive zero. -/
def div : JSNum → JSNum → JSNum
  | nan, _ => nan
  | _, nan => nan
  | posInf, posInf => nan
  | posInf, negInf => nan
  | negInf, posInf => nan
  | negInf, negInf => nan
  | posInf, num b => if 0 ≤ b then posInf else negInf
  | negInf, num b => if 0 ≤ b then negInf else posInf
  | num _, posInf => num 0
  | num _, negInf => num 0
  | num a, num b =>
      if b = 0 then (if a = 0 then nan else if 0 < a then posInf else negInf)
      else num (a / b)

/-- JavaScript Math.abs. -/
def abs : JSNum → JSNum
  | nan => nan
  | posInf => posInf
  | negInf => posInf
  | num a => num |a|

/-- JavaScript strict comparison a < b; false whenever NaN is involved. -/
def lt : JSNum → JSNum → Bool
  | nan, _ => false
  | _, nan => false
  | posInf, _ => false
  | negInf, negInf => false
  | negInf, _ => true
  | num _, posInf => true
  | num _, negInf => false
  | num a, num b => a < b

/-- JavaScript strict comparison a > b. -/
def gt (a b : JSNum) : Bool := lt b a

/-- JavaScript strict equality on numbers: NaN is not equal to anything,
including itself. -/
def jeq : JSNum → JSNum → Bool
  | num a, num b => a = b
  | posInf, posInf => true
  | negInf, negInf => true
  | _, _ => false

/-- JavaScript truthiness of a number: 0 and NaN are falsy. -/
def truthy : JSNum → Bool
  | nan => false
  | num q => q ≠ 0
  | _ => true

end JSNum

/-- Digit-run parser used by the `parseFloat` and `parseInt` models: consumes
the longest leading run of decimal digits, returning its value, its length,
and the rest of the characters. -/
def parseDigitsAux : List Char → ℕ → ℕ → ℕ × ℕ × List Char
  | [], acc, n => (acc, n, [])
  | c :: cs, acc, n =>
      if c.isDigit then parseDigitsAux cs (acc * 10 + (c.toNat - '0'.toNat)) (n + 1)
      else (acc, n, c :: cs)

/-- JavaScript parseFloat, as applied by the sources: optional leading
spaces and sign, an integer digit run, an optional fractional digit run;
the longest valid prefix is parsed and trailing characters are ignored.
When no digit is consumed the result is NaN.  (Exponent suffixes never
occur in the data handled by this repository and are not modelled.) -/
def parseFloat (s : String) : JSNum :=
  let cs0 := s.data.dropWhile (fun c => c = ' ')
  let signAndRest : Bool × List Char :=
    match cs0 with
    | '-' :: rest => (true, rest)
    | '+' :: rest => (false, rest)
    | _ => (false, cs0)
  let ipRun := parseDigitsAux signAndRest.2 0 0
  let fpRun : ℕ × ℕ :=
    match ipRun.2.2 with
    | '.' :: rest =>
        let r := parseDigitsAux rest 0 0
        (r.1, r.2.1)
    | _ => (0, 0)
  if ipRun.2.1 + fpRun.2 = 0 then JSNum.nan
  else
    let mag : ℚ := (ipRun.1 : ℚ) + (fpRun.1 : ℚ) / (10 : ℚ) ^ fpRun.2
    JSNum.num (if signAndRest.1 then -mag else mag)

/-- JavaScript parseInt with radix 10 on a plain digit string (the read
endpoint only applies it to the literals "30", "90" and "180"). -/
def parseIntDec (s : String) : ℕ := (parseDigitsAux s.data 0 0).1

/-- JavaScript s1 || s2 for strings: the empty string is falsy. -/
def jsOrString (s dflt : String) : String := if s = "" then dflt else s

/-- Result object used by every fallible operation in the sources
(success with data, or failure with an error message).  The optional
usedFallback flag of the source type is not modelled; no claim concerns
it. -/
inductive FetchResult (α : Type) where
  | success (data : α)
  | failure (error : String)
deriving DecidableEq

/-- Whether a fetch result is a success, mirroring result.success. -/
def FetchResult.success? {α : Type} : FetchResult α → Bool
  | .success _ => true
  | .failure _ => false

/-- Token configuration from src/src/config/constants.ts. -/
structure TokenConfig where
  symbol : String
  denom : String
  decimals : ℕ

/-- MARS_TOKEN constant. -/
def MARS_TOKEN : TokenConfig :=
  { symbol := "MARS"
    denom := "factory/neutron1ndu2wvkrxtane8se2tr48gv7nsm46y5gcqjhux/MARS"
    decimals := 6 }

/-- Validation thresholds from src/src/config/constants.ts. -/
structure ValidationThresholds where
  MAX_DAILY_CHANGE_PERCENT : ℚ
  MIN_PRICE_USD : ℚ
  MAX_PRICE_USD : ℚ
  MIN_SUPPLY : ℚ
  MAX_SUPPLY : ℚ

/-- VALIDATION_THRESHOLDS constant (decimal literals read as exact
rationals). -/
def VALIDATION_THRESHOLDS : ValidationThresholds :=
  { MAX_DAILY_CHANGE_PERCENT := 50
    MIN_PRICE_USD := 1 / 10000
    MAX_PRICE_USD := 1000
    MIN_SUPPLY := 1000000
    MAX_SUPPLY := 100000000000 }

/-- Retry configuration from src/src/config/constants.ts. -/
structure RetryConfig where
  MAX_RETRIES : ℕ
  RETRY_DELAY : ℕ
  BACKOFF_MULTIPLIER : ℕ

/-- RETRY_CONFIG constant (delays in milliseconds). -/
def RETRY_CONFIG : RetryConfig :=
  { MAX_RETRIES := 3, RETRY_DELAY := 1000, BACKOFF_MULTIPLIER := 2 }

/-- Blob storage configuration from src/src/config/constants.ts. -/
structure BlobConfig where
  CONTAINER_NAME : String
  FILE_PREFIX : String

/-- BLOB_CONFIG constant. -/
def BLOB_CONFIG : BlobConfig :=
  { CONTAINER_NAME := "mars-tokenomics-data", FILE_PREFIX := "daily-data" }

/-- The DailyTokenomicsData interface of the first repository revision:
the shape consumed by validationService.ts and its tests (supply
quantities are decimal strings, USD aggregates are numbers). -/
structure DailyTokenomicsData where
  date : String
  total_supply : String
  circulating_supply : String
  burned_supply : String
  treasury_supply : String
  price_usd : ℚ
  on_chain_liquidity_usd : ℚ
  total_supply_usd : JSNum
  circulating_supply_usd : JSNum
  burned_supply_usd : JSNum
  treasury_supply_usd : JSNum
deriving DecidableEq

/-- The DailyTokenomicsData interface of the current revision
(src/types.d.ts): total and circulating supply dropped, an optional
updated_at timestamp added.  This is the record built by
dataFetcher.fetchAllData and stored by the indexing handlers. -/
structure DailyTokenomicsDataV2 where
  date : String
  burned_supply : String
  treasury_supply : String
  price_usd : ℚ
  on_chain_liquidity_usd : ℚ
  burned_supply_usd : JSNum
  treasury_supply_usd : JSNum
  updated_at : Option String
deriving DecidableEq

/-- Validation errors pushed by validationService.ts, one constructor per
push site, carrying the numeric values interpolated into the message
text. -/
inductive VErr where
  | priceTooLow (price : ℚ)
  | priceTooHigh (price : ℚ)
  | totalSupplyTooLow (total : JSNum)
  | totalSupplyTooHigh (total : JSNum)
  | circulatingExceedsTotal (circulating total : JSNum)
  | negativeSupply
  | negativeLiquidity (liquidity : ℚ)
  | usdMismatch (expected actual : JSNum)
  | extremePriceChange (pct : JSNum)
  | extremeTotalSupplyChange (pct : JSNum)
  | extremeCirculatingSupplyChange (pct : JSNum)
  | priceDroppedToZero
  | totalSupplyDroppedToZero
deriving DecidableEq

/-- Validation warnings pushed by validationService.ts. -/
inductive VWarn where
  | largePriceChange (pct : JSNum)
  | largeLiquidityChange (pct : JSNum)
deriving DecidableEq

/-- validateBasicValues of validationService.ts: the absolute-bounds phase.
The errors list is returned in push order.  All arithmetic on parsed
supply strings goes through `JSNum`, so a malformed string behaves as NaN
exactly as in the source; in particular the USD-consistency division by a
zero expected value yields an infinite percentage (error) and 0 / 0 yields
NaN (no error), matching IEEE division. -/
def validateBasicValues (data : DailyTokenomicsData) : List VErr :=
  let totalSupply := parseFloat data.total_supply
  let circulatingSupply := parseFloat data.circulating_supply
  let burnedSupply := parseFloat data.burned_supply
  let treasurySupply := parseFloat data.treasury_supply
  let expectedTotalSupplyUSD := JSNum.mul totalSupply (.num data.price_usd)
  let usdDifference := JSNum.abs (JSNum.sub expectedTotalSupplyUSD data.total_supply_usd)
  let usdDifferencePercent := JSNum.mul (JSNum.div usdDifference expectedTotalSupplyUSD) (.num 100)
  (if data.price_usd < VALIDATION_THRESHOLDS.MIN_PRICE_USD then
    [VErr.priceTooLow data.price_usd] else []) ++
  (if data.price_usd > VALIDATION_THRESHOLDS.MAX_PRICE_USD then
    [VErr.priceTooHigh data.price_usd] else []) ++
  (if JSNum.lt totalSupply (.num VALIDATION_THRESHOLDS.MIN_SUPPLY) then
    [VErr.totalSupplyTooLow totalSupply] else []) ++
  (if JSNum.gt totalSupply (.num VALIDATION_THRESHOLDS.MAX_SUPPLY) then
    [VErr.totalSupplyTooHigh totalSupply] else []) ++
  (if JSNum.gt circulatingSupply totalSupply then
    [VErr.circulatingExceedsTotal circulatingSupply totalSupply] else []) ++
  (if JSNum.lt burnedSupply (.num 0) || JSNum.lt treasurySupply (.num 0) ||
      JSNum.lt circulatingSupply (.num 0) then
    [VErr.negativeSupply] else []) ++
  (if data.on_chain_liquidity_usd < 0 then
    [VErr.negativeLiquidity data.on_chain_liquidity_usd] else []) ++
  (if JSNum.gt usdDifferencePercent (.num 1) then
    [VErr.usdMismatch expectedTotalSupplyUSD data.total_supply_usd] else [])

/-- calculatePercentChange of validationService.ts, with JavaScript strict
equality (so a NaN old value falls through to the division, which
propagates NaN). -/
def calculatePercentChange (oldValue newValue : JSNum) : JSNum :=
  if JSNum.jeq oldValue (.num 0) then
    (if JSNum.jeq newValue (.num 0) then .num 0 else .num 100)
  else JSNum.mul (JSNum.div (JSNum.sub newValue oldValue) oldValue) (.num 100)

/-- validateChanges of validationService.ts: the comparative phase, with
previous-day data.  Returns (errors, warnings), each in push order.  Note
the source compares price change against MAX_DAILY_CHANGE_PERCENT, then
(else-if) against half of it for the warning, and liquidity change against
double of it; burned_supply and treasury_supply are never examined. -/
def validateChanges (current previous : DailyTokenomicsData) :
    List VErr × List VWarn :=
  let priceChangePercent :=
    calculatePercentChange (.num previous.price_usd) (.num current.price_usd)
  let totalSupplyChange :=
    calculatePercentChange (parseFloat previous.total_supply) (parseFloat current.total_supply)
  let circulatingSupplyChange :=
    calculatePercentChange (parseFloat previous.circulating_supply)
      (parseFloat current.circulating_supply)
  let liquidityChange :=
    calculatePercentChange (.num previous.on_chain_liquidity_usd)
      (.num current.on_chain_liquidity_usd)
  let priceExtreme :=
    JSNum.gt (JSNum.abs priceChangePercent) (.num VALIDATION_THRESHOLDS.MAX_DAILY_CHANGE_PERCENT)
  let errors :=
    (if priceExtreme then [VErr.extremePriceChange priceChangePercent] else []) ++
    (if JSNum.gt (JSNum.abs totalSupplyChange)
        (.num VALIDATION_THRESHOLDS.MAX_DAILY_CHANGE_PERCENT) then
      [VErr.extremeTotalSupplyChange totalSupplyChange] else []) ++
    (if JSNum.gt (JSNum.abs circulatingSupplyChange)
        (.num VALIDATION_THRESHOLDS.MAX_DAILY_CHANGE_PERCENT) then
      [VErr.extremeCirculatingSupplyChange circulatingSupplyChange] else []) ++
    (if current.price_usd = 0 ∧ previous.price_usd > 0 then
      [VErr.priceDroppedToZero] else []) ++
    (if JSNum.jeq (parseFloat current.total_supply) (.num 0) &&
        JSNum.gt (parseFloat previous.total_supply) (.num 0) then
      [VErr.totalSupplyDroppedToZero] else [])
  let warnings :=
    (if !priceExtreme && JSNum.gt (JSNum.abs priceChangePercent)
        (.num (VALIDATION_THRESHOLDS.MAX_DAILY_CHANGE_PERCENT / 2)) then
      [VWarn.largePriceChange priceChangePercent] else []) ++
    (if JSNum.gt (JSNum.abs liquidityChange)
        (.num (VALIDATION_THRESHOLDS.MAX_DAILY_CHANGE_PERCENT * 2)) then
      [VWarn.largeLiquidityChange liquidityChange] else [])
  (errors, warnings)

/-- Result of validateData of validationService.ts. -/
structure DataValidationResult where
  isValid : Bool
  errors : List VErr
  warnings : List VWarn
deriving DecidableEq

/-- validateData of validationService.ts: run the absolute-bounds phase,
then the comparative phase when previous-day data is supplied; valid iff
the combined errors list is empty. -/
def validateData (currentData : DailyTokenomicsData)
    (previousData : Option DailyTokenomicsData) : DataValidationResult :=
  let basic := validateBasicValues currentData
  let changes :=
    match previousData with
    | some p => validateChanges currentData p
    | none => ([], [])
  { isValid := (basic ++ changes.1).isEmpty
    errors := basic ++ changes.1
    warnings := changes.2 }

/-- Partial candidate record (the Partial DailyTokenomicsData argument of
createFallbackData): every field optional. -/
structure PartialTokenomicsData where
  total_supply : Option String := none
  circulating_supply : Option String := none
  burned_supply : Option String := none
  treasury_supply : Option String := none
  price_usd : Option ℚ := none
  on_chain_liquidity_usd : Option ℚ := none
  total_supply_usd : Option JSNum := none
  circulating_supply_usd : Option JSNum := none
  burned_supply_usd : Option JSNum := none
  treasury_supply_usd : Option JSNum := none
deriving DecidableEq

/-- JavaScript candidate.field || previous.field for an optional string
field: an absent or empty candidate string falls back. -/
def jsOrOptString (c : Option String) (prev : String) : String :=
  match c with
  | some s => if s = "" then prev else s
  | none => prev

/-- JavaScript candidate.field || previous.field for an optional numeric
field: an absent or zero candidate value falls back. -/
def jsOrOptQ (c : Option ℚ) (prev : ℚ) : ℚ :=
  match c with
  | some q => if q = 0 then prev else q
  | none => prev

/-- createFallbackData of validationService.ts.  The previous-day lookup
(getValidationContext, date minus one day against the store) enters as the
`previousData` argument.  The source first sets the four USD fields to 0
and then overwrites all of them with quantity times price; the embedding
assigns the recomputed values directly, which is the same record.  The
usedFallback marker of the source result is not modelled. -/
def createFallbackData (date : String) (failedData : PartialTokenomicsData)
    (previousData : Option DailyTokenomicsData) :
    FetchResult DailyTokenomicsData :=
  match previousData with
  | none => .failure "No previous data available for fallback"
  | some prev =>
      let total_supply := jsOrOptString failedData.total_supply prev.total_supply
      let circulating_supply := jsOrOptString failedData.circulating_supply prev.circulating_supply
      let burned_supply := jsOrOptString failedData.burned_supply prev.burned_supply
      let treasury_supply := jsOrOptString failedData.treasury_supply prev.treasury_supply
      let price := jsOrOptQ failedData.price_usd prev.price_usd
      let on_chain_liquidity_usd :=
        jsOrOptQ failedData.on_chain_liquidity_usd prev.on_chain_liquidity_usd
      .success
        { date := date
          total_supply := total_supply
          circulating_supply := circulating_supply
          burned_supply := burned_supply
          treasury_supply := treasury_supply
          price_usd := price
          on_chain_liquidity_usd := on_chain_liquidity_usd
          total_supply_usd := JSNum.mul (parseFloat total_supply) (.num price)
          circulating_supply_usd := JSNum.mul (parseFloat circulating_supply) (.num price)
          burned_supply_usd := JSNum.mul (parseFloat burned_supply) (.num price)
          treasury_supply_usd := JSNum.mul (parseFloat treasury_supply) (.num price) }

/-- Observable outcome of one run of the retrying fetcher: the final
result, the number of attempts actually performed, and the backoff delays
(in milliseconds) awaited between consecutive attempts, in order. -/
structure RetryRun (α : Type) where
  result : FetchResult α
  attempts : ℕ
  delays : List ℕ
deriving DecidableEq

/-- Loop body of fetchWithRetry of dataFetcher.ts.  `f` gives the outcome
of each attempt (the parsed payload, or the caught error message, which
the source normalizes to "Request timeout (10s)" for aborts and to
"Unknown error" for non-Error throws before storing it in lastError).
`attempt` is the 1-based attempt counter; `fuel` is the number of attempts
still allowed.  A delay of RETRY_DELAY times BACKOFF_MULTIPLIER to the
power (attempt - 1) is awaited only when the failed attempt was not the
last one, exactly as in the source. -/
def retryAux {α : Type} (f : ℕ → Except String α) : ℕ → ℕ → RetryRun α
  | _, 0 => ⟨.failure "", 0, []⟩
  | attempt, fuel + 1 =>
      match f attempt with
      | .ok v => ⟨.success v, 1, []⟩
      | .error e =>
          if fuel = 0 then ⟨.failure e, 1, []⟩
          else
            let rest := retryAux f (attempt + 1) fuel
            ⟨rest.result, rest.attempts + 1,
              (RETRY_CONFIG.RETRY_DELAY * RETRY_CONFIG.BACKOFF_MULTIPLIER ^ (attempt - 1))
                :: rest.delays⟩

/-- fetchWithRetry of dataFetcher.ts: up to MAX_RETRIES attempts starting
at attempt 1. -/
def fetchWithRetry {α : Type} (f : ℕ → Except String α) : RetryRun α :=
  retryAux f 1 RETRY_CONFIG.MAX_RETRIES

/-- normalizeAmount of dataFetcher.ts: BigInt(amount) / BigInt(10 **
decimals), truncating division toward zero on arbitrary-precision
integers.  The decimal string argument and result of the source are
represented by the integers they denote; 10 ** decimals is exact for the
configured decimals (6). -/
def normalizeAmount (amount : ℤ) (decimals : ℕ) : ℤ :=
  Int.tdiv amount ((10 : ℤ) ^ decimals)

/-- Innermost field of the CoinGecko response shape, with the usd price
optional because the source reaches it via optional chaining. -/
structure CoinGeckoPrice where
  usd : Option ℚ
deriving DecidableEq

/-- market_data field of the CoinGecko response shape. -/
structure CoinGeckoMarketData where
  current_price : Option CoinGeckoPrice
deriving DecidableEq

/-- CoinGecko response body as consumed by fetchMarsPrice (identifier
fields are irrelevant and omitted). -/
structure CoinGeckoResponse where
  market_data : Option CoinGeckoMarketData
deriving DecidableEq

/-- The optional chain result.data?.market_data?.current_price?.usd. -/
def coinGeckoUsd (r : CoinGeckoResponse) : Option ℚ :=
  (r.market_data.bind (fun md => md.current_price)).bind (fun cp => cp.usd)

/-- fetchMarsPrice of dataFetcher.ts, given the underlying fetchWithRetry
result.  The success branch requires the nested usd field to be truthy
(present and nonzero); otherwise the failure message is result.error ||
"Price data not available". -/
def fetchMarsPrice (result : FetchResult CoinGeckoResponse) : FetchResult ℚ :=
  match result with
  | .success data =>
      match coinGeckoUsd data with
      | some u => if u ≠ 0 then .success u else .failure "Price data not available"
      | none => .failure "Price data not available"
  | .failure e => .failure (jsOrString e "Price data not available")

/-- JavaScript Math.round: round to the nearest integer, half toward
positive infinity. -/
def jsMathRound (q : ℚ) : ℤ := ⌊q + 1 / 2⌋

/-- Math.round(q * 100) / 100, the 2-decimal rounding applied by
fetchAllData. -/
def round2 (q : ℚ) : ℚ := (jsMathRound (q * 100) : ℚ) / 100

/-- Math.round(x * 100) / 100 lifted to JavaScript numbers: Math.round
maps NaN to NaN and preserves infinities, and dividing by 100 keeps the
class. -/
def jsRound2 : JSNum → JSNum
  | .nan => .nan
  | .posInf => .posInf
  | .negInf => .negInf
  | .num q => .num (round2 q)

/-- The failures list assembled by fetchAllData of dataFetcher.ts: one
labelled entry per failed source, in the fixed order burned supply,
treasury supply, price, liquidity. -/
def fetchFailures (burnedSupplyResult treasurySupplyResult : FetchResult String)
    (priceResult liquidityResult : FetchResult ℚ) : List String :=
  (match burnedSupplyResult with
    | .failure e => ["Burned supply: " ++ e]
    | .success _ => []) ++
  (match treasurySupplyResult with
    | .failure e => ["Treasury supply: " ++ e]
    | .success _ => []) ++
  (match priceResult with
    | .failure e => ["Price: " ++ e]
    | .success _ => []) ++
  (match liquidityResult with
    | .failure e => ["Liquidity: " ++ e]
    | .success _ => [])

/-- fetchAllData of dataFetcher.ts (current revision), given the four
concurrent source results, the current date string and the updated_at
timestamp.  If every source succeeded a DailyTokenomicsDataV2 record is
assembled (liquidity and the USD aggregates rounded to 2 decimals, price
kept at full precision); otherwise the failure message concatenates the
labelled failures with ", " after the "Failed to fetch: " prefix. -/
def fetchAllData (date : String)
    (burnedSupplyResult treasurySupplyResult : FetchResult String)
    (priceResult liquidityResult : FetchResult ℚ)
    (now : String) : FetchResult DailyTokenomicsDataV2 :=
  match burnedSupplyResult, treasurySupplyResult, priceResult, liquidityResult with
  | .success burnedSupply, .success treasurySupply, .success price, .success liquidity =>
      .success
        { date := date
          burned_supply := burnedSupply
          treasury_supply := treasurySupply
          price_usd := price
          on_chain_liquidity_usd := round2 liquidity
          burned_supply_usd := jsRound2 (JSNum.mul (parseFloat burnedSupply) (.num price))
          treasury_supply_usd := jsRound2 (JSNum.mul (parseFloat treasurySupply) (.num price))
          updated_at := some now }
  | b, t, p, l =>
      .failure ("Failed to fetch: " ++ String.intercalate ", " (fetchFailures b t p l))

/-- Allowed values of the days query parameter of the read endpoint. -/
def ALLOWED_DAYS : List String := ["30", "90", "180", "all"]

/-- HTTP response of the read endpoint as far as the claims observe it:
status code plus the error and message body fields of the non-200
responses (the 200 payload reshaping is not claimed and not modelled). -/
structure ReadResponse where
  status : ℕ
  error : Option String
  message : Option String
deriving DecidableEq

/-- The handler of pages/api/tokenomics.ts (both revisions share this
control flow), given the request method, the raw days query parameter and
the two storage operations it may invoke.  daysParam is (days as
DaysParam) || "30"; an invalid value is rejected with 400; a storage
failure surfaces as 500 with the underlying message (or "Unknown error
occurred" for an empty one); a successful but empty record list surfaces
as 404. -/
def tokenomicsHandler (α : Type) (method : String) (days : Option String)
    (getAllData : FetchResult (List α)) (getDataRange : ℕ → FetchResult (List α)) :
    ReadResponse :=
  if method ≠ "GET" then
    ⟨405, some "Method not allowed", some "Only GET requests are supported"⟩
  else
    let daysParam := jsOrString (days.getD "") "30"
    if daysParam ∈ ALLOWED_DAYS then
      let dataResult :=
        if daysParam = "all" then getAllData else getDataRange (parseIntDec daysParam)
      match dataResult with
      | .failure e =>
          ⟨500, some "Data fetch failed", some (jsOrString e "Unknown error occurred")⟩
      | .success data =>
          if data.length = 0 then
            ⟨404, some "No data found", some "No tokenomics data available"⟩
          else ⟨200, none, none⟩
    else
      ⟨400, some "Invalid days parameter",
        some "Days parameter must be one of: 30, 90, 180, all"⟩

/-- Environment of one indexing run: everything the cron handlers observe
from their collaborators.  fetchResult is dataFetcher.fetchAllData();
fallbackResult is validationService.createFallbackData(today, ...) for
whichever argument the handler passes; validationIsValid is the isValid
flag of validationService.validateData on the fetched data;
storeResult is the outcome of storageService.storeData (each run performs
at most one store call). -/
structure IndexEnv where
  method : String
  dataExists : Bool
  currentHour : ℕ
  fetchResult : FetchResult DailyTokenomicsDataV2
  fallbackResult : FetchResult DailyTokenomicsDataV2
  validationIsValid : Bool
  storeResult : FetchResult String

/-- Observable outcome of an indexing run: HTTP status, success flag,
message, fallback marker, and the records actually persisted by
successful storeData calls, in order. -/
structure IndexOutcome where
  status : ℕ
  success : Bool
  message : String
  usedFallback : Bool
  writes : List DailyTokenomicsDataV2
deriving DecidableEq

/-- The handler of pages/api/cron/index-data.ts: method check, then the
exists-check short circuit (a record already stored for today makes the
run a reported-success no-op), then fetch, validate, fall back and store
as in the source. -/
def cronIndexHandler (env : IndexEnv) : IndexOutcome :=
  if env.method ≠ "POST" ∧ env.method ≠ "GET" then
    ⟨405, false, "Method not allowed", false, []⟩
  else if env.dataExists then
    ⟨200, true, "Data already indexed for today", false, []⟩
  else
    match env.fetchResult with
    | .failure fetchErr =>
        match env.fallbackResult with
        | .failure _ =>
            ⟨500, false, "Data fetch failed and no fallback available: " ++ fetchErr,
              false, []⟩
        | .success fallbackData =>
            match env.storeResult with
            | .failure storeErr =>
                ⟨500, false, "Failed to store fallback data: " ++ storeErr, false, []⟩
            | .success _ =>
                ⟨200, true, "Data indexed using fallback values", true, [fallbackData]⟩
    | .success currentData =>
        if env.validationIsValid then
          match env.storeResult with
          | .failure storeErr =>
              ⟨500, false, "Failed to store data: " ++ storeErr, false, []⟩
          | .success _ =>
              ⟨200, true, "Data indexed successfully", false, [currentData]⟩
        else
          match env.fallbackResult with
          | .failure _ =>
              ⟨500, false, "Data validation failed and no fallback available", false, []⟩
          | .success fallbackData =>
              match env.storeResult with
              | .failure storeErr =>
                  ⟨500, false,
                    "Failed to store fallback data after validation failure: " ++ storeErr,
                    false, []⟩
              | .success _ =>
                  ⟨200, true, "Data indexed using fallback due to validation failures",
                    true, [fallbackData]⟩

/-- The revised indexing handler (the unnamed copy of the cron endpoint
with CORS handling and hourly refresh).  It answers OPTIONS preflights
with an empty 200, checks the method, and then proceeds whether or not a
record for today already exists: the exists-check only selects the final
message, so an existing record is refetched and overwritten. -/
def hourlyIndexHandler (env : IndexEnv) : IndexOutcome :=
  if env.method = "OPTIONS" then ⟨200, true, "", false, []⟩
  else if env.method ≠ "POST" ∧ env.method ≠ "GET" then
    ⟨405, false, "Method not allowed", false, []⟩
  else
    match env.fetchResult with
    | .failure fetchErr =>
        match env.fallbackResult with
        | .failure _ =>
            ⟨500, false, "Data fetch failed and no fallback available: " ++ fetchErr,
              false, []⟩
        | .success fallbackData =>
            match env.storeResult with
            | .failure storeErr =>
                ⟨500, false, "Failed to store fallback data: " ++ storeErr, false, []⟩
            | .success _ =>
                ⟨200, true, "Data indexed using fallback values", true, [fallbackData]⟩
    | .success currentData =>
        if env.validationIsValid then
          match env.storeResult with
          | .failure storeErr =>
              ⟨500, false, "Failed to store data: " ++ storeErr, false, []⟩
          | .success _ =>
              ⟨200, true,
                (if env.dataExists then
                  "Data updated successfully (hour: " ++ Nat.repr env.currentHour ++ ")"
                else
                  "Data indexed successfully (hour: " ++ Nat.repr env.currentHour ++ ")"),
                false, [currentData]⟩
        else
          match env.fallbackResult with
          | .failure _ =>
              ⟨500, false, "Data validation failed and no fallback available", false, []⟩
          | .success fallbackData =>
              match env.storeResult with
              | .failure storeErr =>
                  ⟨500, false,
                    "Failed to store fallback data after validation failure: " ++ storeErr,
                    false, []⟩
              | .success _ =>
                  ⟨200, true, "Data indexed using fallback due to validation failures",
                    true, [fallbackData]⟩

/-- Blob file name for a date, getFileName of storageService.ts. -/
def getFileName (date : String) : String :=
  BLOB_CONFIG.FILE_PREFIX ++ "-" ++ date ++ ".json"

/-- The blob store put with addRandomSuffix false and allowOverwrite true,
as invoked by storeData: writing under an existing key replaces that entry
in place, writing under a fresh key prepends a new entry. -/
def putBlob (store : List (String × DailyTokenomicsDataV2)) (key : String)
    (rec : DailyTokenomicsDataV2) : List (String × DailyTokenomicsDataV2) :=
  if store.any (fun kv => kv.1 = key) then
    store.map (fun kv => if kv.1 = key then (key, rec) else kv)
  else (key, rec) :: store

/-- Apply a handler run's persisted writes to the store; storeData keys
each record by getFileName of its date. -/
def applyWrites (store : List (String × DailyTokenomicsDataV2))
    (writes : List DailyTokenomicsDataV2) : List (String × DailyTokenomicsDataV2) :=
  writes.foldl (fun st r => putBlob st (getFileName r.date) r) store

/-- Concrete record for exercising the absolute-bounds phase: every field
consistent and in bounds except burned_supply_usd, which diverges from
quantity times price (50000000 times 0.15 = 7500000) by far more than one
percent. -/
def usdDivergentRecord : DailyTokenomicsData :=
  { date := "2025-09-12"
    total_supply := "1000000000"
    circulating_supply := "800000000"
    burned_supply := "50000000"
    treasury_supply := "150000000"
    price_usd := 15 / 100
    on_chain_liquidity_usd := 100000
    total_supply_usd := .num 150000000
    circulating_supply_usd := .num 120000000
    burned_supply_usd := .num 999999
    treasury_supply_usd := .num 22500000 }

/-- Concrete previous-day record with burned_supply 50000000 and otherwise
unremarkable values. -/
def supplyJumpPrev : DailyTokenomicsData :=
  { date := "2025-09-11"
    total_supply := "1000000000"
    circulating_supply := "800000000"
    burned_supply := "50000000"
    treasury_supply := "150000000"
    price_usd := 15 / 100
    on_chain_liquidity_usd := 100000
    total_supply_usd := .num 150000000
    circulating_supply_usd := .num 120000000
    burned_supply_usd := .num 7500000
    treasury_supply_usd := .num 22500000 }

/-- Concrete current-day record identical to supplyJumpPrev except that
burned_supply jumped tenfold (a 900 percent day-over-day change). -/
def supplyJumpCur : DailyTokenomicsData :=
  { date := "2025-09-12"
    total_supply := "1000000000"
    circulating_supply := "800000000"
    burned_supply := "500000000"
    treasury_supply := "150000000"
    price_usd := 15 / 100
    on_chain_liquidity_usd := 100000
    total_supply_usd := .num 150000000
    circulating_supply_usd := .num 120000000
    burned_supply_usd := .num 75000000
    treasury_supply_usd := .num 22500000 }

/-- Concrete pair for the comparative price checks: previous price 0.10,
current price 0.13, a 30 percent change, all other fields unchanged. -/
def priceWarnPrev : DailyTokenomicsData :=
  { supplyJumpPrev with price_usd := 1 / 10 }

/-- Current record of the 30 percent price change pair. -/
def priceWarnCur : DailyTokenomicsData :=
  { supplyJumpPrev with date := "2025-09-12", price_usd := 13 / 100 }

/-- Candidate object whose price_usd field is present but zero: the field
the fallback builder treats as missing because 0 is falsy. -/
def zeroPriceCandidate : PartialTokenomicsData :=
  { price_usd := some 0 }

/-- Concrete current-revision record, as assembled by fetchAllData from a
0.15 price, normalized balances 50000000 and 150000000 and liquidity
100000. -/
def sampleV2Record : DailyTokenomicsDataV2 :=
  { date := "2025-09-12"
    burned_supply := "50000000"
    treasury_supply := "150000000"
    price_usd := 15 / 100
    on_chain_liquidity_usd := 100000
    burned_supply_usd := .num 7500000
    treasury_supply_usd := .num 22500000
    updated_at := some "2025-09-12T02:00:00.000Z" }

/-- Indexing environment in which a record for today already exists and
everything else would succeed: fetch, validation and store all fine. -/
def repeatRunEnv : IndexEnv :=
  { method := "POST"
    dataExists := true
    currentHour := 2
    fetchResult := .success sampleV2Record
    fallbackResult := .failure "No previous data available for fallback"
    validationIsValid := true
    storeResult := .success "https://blob/daily-data-2025-09-12.json" }

/-- Attempt oracle for the retry witness: the first attempt throws, the
second succeeds with the parsed value 7. -/
def retryProbe : ℕ → Except String ℕ :=
  fun i => if i = 1 then .error "HTTP 500: Internal Server Error" else .ok 7

/-- CoinGecko response whose nested usd field is present but equal to 0. -/
def zeroUsdResponse : CoinGeckoResponse :=
  { market_data := some { current_price := some { usd := some 0 } } }

/-- Subtraction of finite values is rational subtraction. -/
@[simp] theorem JSNum.sub_num (a b : ℚ) : JSNum.sub (.num a) (.num b) = .num (a - b) := rfl

/-- Multiplication of finite values is rational multiplication. -/
@[simp] theorem JSNum.mul_num (a b : ℚ) : JSNum.mul (.num a) (.num b) = .num (a * b) := rfl

/-- Math.abs of a finite value. -/
@[simp] theorem JSNum.abs_num (a : ℚ) : JSNum.abs (.num a) = .num |a| := rfl

/-- Division of finite values, including the division-by-zero classes. -/
@[simp] theorem JSNum.div_num (a b : ℚ) :
    JSNum.div (.num a) (.num b) =
      if b = 0 then (if a = 0 then .nan else if 0 < a then .posInf else .negInf)
      else .num (a / b) := rfl

/-- Comparison of finite values is rational comparison. -/
@[simp] theorem JSNum.lt_num (a b : ℚ) : JSNum.lt (.num a) (.num b) = decide (a < b) := by
  simp [JSNum.lt]

/-- Reversed comparison of finite values. -/
@[simp] theorem JSNum.gt_num (a b : ℚ) : JSNum.gt (.num a) (.num b) = decide (b < a) := by
  simp [JSNum.gt, JSNum.lt]

/-- Strict equality of finite values is rational equality. -/
@[simp] theorem JSNum.jeq_num (a b : ℚ) : JSNum.jeq (.num a) (.num b) = decide (a = b) := by
  simp [JSNum.jeq]

/-- Plus infinity exceeds every finite value. -/
@[simp] theorem JSNum.gt_posInf_num (b : ℚ) : JSNum.gt .posInf (.num b) = true := rfl

/-- Comparisons with NaN on the left are false. -/
@[simp] theorem JSNum.gt_nan_left (a : JSNum) : JSNum.gt .nan a = false := by
  cases a <;> rfl

/-- Comparisons with NaN on the right are false. -/
@[simp] theorem JSNum.gt_nan_right (a : JSNum) : JSNum.gt a .nan = false := by
  cases a <;> rfl

/-- NaN absorbs multiplication on the left. -/
@[simp] theorem JSNum.mul_nan_left (x : JSNum) : JSNum.mul .nan x = .nan := by
  cases x <;> rfl

/-- NaN absorbs multiplication on the right. -/
@[simp] theorem JSNum.mul_nan_right (x : JSNum) : JSNum.mul x .nan = .nan := by
  cases x <;> rfl

/-- Two string concatenations whose literal prefixes start with different
characters are different. -/
theorem append_ne_of_head_ne {c₁ c₂ : Char} {l₁ l₂ : List Char} (p q a b : String)
    (hp : p.data = c₁ :: l₁) (hq : q.data = c₂ :: l₂) (hne : c₁ ≠ c₂) :
    p ++ a ≠ q ++ b := by
  intro h
  have h2 := congrArg String.data h
  rw [String.data_append, String.data_append, hp, hq] at h2
  simp [List.cons_append] at h2
  exact hne h2.1

/-- Burned-supply entries never collide with treasury entries. -/
@[simp] theorem burned_label_ne_treasury (a b : String) :
    "Burned supply: " ++ a ≠ "Treasury supply: " ++ b :=
  append_ne_of_head_ne _ _ a b rfl rfl (by decide)

/-- Burned-supply entries never collide with price entries. -/
@[simp] theorem burned_label_ne_price (a b : String) :
    "Burned supply: " ++ a ≠ "Price: " ++ b :=
  append_ne_of_head_ne _ _ a b rfl rfl (by decide)

/-- Burned-supply entries never collide with liquidity entries. -/
@[simp] theorem burned_label_ne_liq (a b : String) :
    "Burned supply: " ++ a ≠ "Liquidity: " ++ b :=
  append_ne_of_head_ne _ _ a b rfl rfl (by decide)

/-- Treasury entries never collide with burned-supply entries. -/
@[simp] theorem treasury_label_ne_burned (a b : String) :
    "Treasury supply: " ++ a ≠ "Burned supply: " ++ b :=
  append_ne_of_head_ne _ _ a b rfl rfl (by decide)

/-- Treasury entries never collide with price entries. -/
@[simp] theorem treasury_label_ne_price (a b : String) :
    "Treasury supply: " ++ a ≠ "Price: " ++ b :=
  append_ne_of_head_ne _ _ a b rfl rfl (by decide)

/-- Treasury entries never collide with liquidity entries. -/
@[simp] theorem treasury_label_ne_liq (a b : String) :
    "Treasury supply: " ++ a ≠ "Liquidity: " ++ b :=
  append_ne_of_head_ne _ _ a b rfl rfl (by decide)

/-- Price entries never collide with burned-supply entries. -/
@[simp] theorem price_label_ne_burned (a b : String) :
    "Price: " ++ a ≠ "Burned supply: " ++ b :=
  append_ne_of_head_ne _ _ a b rfl rfl (by decide)

/-- Price entries never collide with treasury entries. -/
@[simp] theorem price_label_ne_treasury (a b : String) :
    "Price: " ++ a ≠ "Treasury supply: " ++ b :=
  append_ne_of_head_ne _ _ a b rfl rfl (by decide)

/-- Price entries never collide with liquidity entries. -/
@[simp] theorem price_label_ne_liq (a b : String) :
    "Price: " ++ a ≠ "Liquidity: " ++ b :=
  append_ne_of_head_ne _ _ a b rfl rfl (by decide)

/-- Liquidity entries never collide with burned-supply entries. -/
@[simp] theorem liq_label_ne_burned (a b : String) :
    "Liquidity: " ++ a ≠ "Burned supply: " ++ b :=
  append_ne_of_head_ne _ _ a b rfl rfl (by decide)

/-- Liquidity entries never collide with treasury entries. -/
@[simp] theorem liq_label_ne_treasury (a b : String) :
    "Liquidity: " ++ a ≠ "Treasury supply: " ++ b :=
  append_ne_of_head_ne _ _ a b rfl rfl (by decide)

/-- Liquidity entries never collide with price entries. -/
@[simp] theorem liq_label_ne_price (a b : String) :
    "Liquidity: " ++ a ≠ "Price: " ++ b :=
  append_ne_of_head_ne _ _ a b rfl rfl (by decide)

/-- Membership in a conditional singleton list. -/
@[simp] theorem mem_if_singleton {α : Type} {c : Prop} [Decidable c] (a x : α) :
    (a ∈ (if c then [x] else [])) ↔ (c ∧ a = x) := by
  split <;> simp_all

/-- Key uniqueness is preserved by a single keyed put. -/
theorem putBlob_keys_nodup (store : List (String × DailyTokenomicsDataV2))
    (key : String) (rec : DailyTokenomicsDataV2)
    (h : (store.map Prod.fst).Nodup) :
    ((putBlob store key rec).map Prod.fst).Nodup := by
  unfold putBlob
  split
  · have heq : (store.map (fun kv => if kv.1 = key then (key, rec) else kv)).map Prod.fst
        = store.map Prod.fst := by
      rw [List.map_map]
      apply List.map_congr_left
      intro kv _
      by_cases hk : kv.1 = key <;> simp [hk]
    rw [heq]; exact h
  · rename_i hany
    simp only [List.map_cons]
    refine List.Nodup.cons ?_ h
    intro hmem
    simp only [List.mem_map] at hmem
    obtain ⟨kv, hkv, hfst⟩ := hmem
    exact hany (List.any_eq_true.mpr ⟨kv, hkv, by simp [hfst]⟩)

/-- Key uniqueness is preserved by any sequence of keyed writes. -/
theorem applyWrites_keys_nodup (writes : List DailyTokenomicsDataV2) :
    ∀ store : List (String × DailyTokenomicsDataV2),
    (store.map Prod.fst).Nodup → ((applyWrites store writes).map Prod.fst).Nodup := by
  induction writes with
  | nil => intro store h; exact h
  | cons w ws ih =>
      intro store h
      exact ih _ (putBlob_keys_nodup store (getFileName w.date) w h)

/-- C1, counterexample.  The absolute-bounds phase does not check
burned_supply_usd against quantity times price: on a record whose
burned_supply_usd (999999) diverges from 50000000 times 0.15 = 7500000 by
far more than one percent while every other field is consistent, the
validator reports no error at all, refuting the claim that such a
divergence adds an error. -/
theorem c1_burned_usd_unchecked_counterexample :
    parseFloat usdDivergentRecord.burned_supply = .num 50000000
    ∧ usdDivergentRecord.burned_supply_usd = .num 999999
    ∧ |50000000 * usdDivergentRecord.price_usd - 999999| /
        (50000000 * usdDivergentRecord.price_usd) * 100 > 1
    ∧ validateBasicValues usdDivergentRecord = [] := by
  refine ⟨?_, rfl, by norm_num [usdDivergentRecord], ?_⟩
  · simp +decide [parseFloat, parseDigitsAux, usdDivergentRecord]
  · simp +decide [validateBasicValues, parseFloat, parseDigitsAux,
      usdDivergentRecord, VALIDATION_THRESHOLDS]
    norm_num

/-- C1, amended.  The absolute-bounds USD-consistency check covers only
total_supply_usd: a usdMismatch error is reported exactly when the
recomputed total (parsed total_supply times price_usd) makes the relative
difference against total_supply_usd exceed one percent, where a zero
recomputed value with a nonzero stored value counts as exceeding (the
division yields an infinite percentage) and a zero recomputed value with a
zero stored value does not (the 0 / 0 NaN comparison is false); and the
phase reads neither burned_supply_usd nor treasury_supply_usd, so its
output is invariant under arbitrary changes to those two fields. -/
theorem c1_usd_consistency_amended (data : DailyTokenomicsData) (t a : ℚ)
    (ht : parseFloat data.total_supply = .num t)
    (ha : data.total_supply_usd = .num a) :
    ((∃ e x, VErr.usdMismatch e x ∈ validateBasicValues data) ↔
      (if t * data.price_usd = 0 then a ≠ 0
       else |t * data.price_usd - a| / (t * data.price_usd) * 100 > 1))
    ∧ (∀ b c, validateBasicValues
        { data with burned_supply_usd := b, treasury_supply_usd := c } =
        validateBasicValues data) := by
  refine ⟨?_, fun b c => rfl⟩
  by_cases h0 : t * data.price_usd = 0
  · by_cases ha0 : a = 0
    · simp [validateBasicValues, ht, ha, h0, ha0]
    · have hpos : (0:ℚ) < |t * data.price_usd - a| := by
        rw [h0]; simpa using ha0
      simp [validateBasicValues, ht, ha, h0, ha0, hpos, JSNum.mul, JSNum.gt, JSNum.lt]
  · simp [validateBasicValues, ht, ha, h0]

/-- C1, witness for the amended theorem: on the concrete record with an
exactly consistent total_supply_usd no usdMismatch error is reported, and
rewriting its burned and treasury USD fields leaves the phase output
unchanged. -/
theorem c1_usd_consistency_amended_witness :
    (¬ ∃ e x, VErr.usdMismatch e x ∈ validateBasicValues usdDivergentRecord)
    ∧ validateBasicValues
        { usdDivergentRecord with
            burned_supply_usd := .num 0
            treasury_supply_usd := .num 0 } =
      validateBasicValues usdDivergentRecord := by
  have h := c1_usd_consistency_amended usdDivergentRecord 1000000000 150000000
    (by simp +decide [parseFloat, parseDigitsAux, usdDivergentRecord]) rfl
  refine ⟨?_, h.2 (.num 0) (.num 0)⟩
  intro hx
  have := h.1.mp hx
  revert this
  norm_num [usdDivergentRecord]

/-- C2.  For a GET request to the range-read endpoint: a days parameter
outside the allowed set yields status 400; a storage retrieval failure
yields status 500 carrying the underlying (nonempty) error message; and a
successful but empty record list yields status 404. -/
theorem c2_read_endpoint_statuses (α : Type) (days : Option String)
    (getAllData : FetchResult (List α)) (getDataRange : ℕ → FetchResult (List α)) :
    (jsOrString (days.getD "") "30" ∉ ALLOWED_DAYS →
      tokenomicsHandler α "GET" days getAllData getDataRange =
        ⟨400, some "Invalid days parameter",
          some "Days parameter must be one of: 30, 90, 180, all"⟩)
    ∧ (∀ e, jsOrString (days.getD "") "30" ∈ ALLOWED_DAYS →
        (if jsOrString (days.getD "") "30" = "all" then getAllData
          else getDataRange (parseIntDec (jsOrString (days.getD "") "30"))) = .failure e →
        e ≠ "" →
        tokenomicsHandler α "GET" days getAllData getDataRange =
          ⟨500, some "Data fetch failed", some e⟩)
    ∧ (jsOrString (days.getD "") "30" ∈ ALLOWED_DAYS →
        (if jsOrString (days.getD "") "30" = "all" then getAllData
          else getDataRange (parseIntDec (jsOrString (days.getD "") "30"))) = .success [] →
        tokenomicsHandler α "GET" days getAllData getDataRange =
          ⟨404, some "No data found", some "No tokenomics data available"⟩) := by
  refine ⟨?_, ?_, ?_⟩
  · intro hbad
    simp [tokenomicsHandler, hbad]
  · intro e hok hres hne
    simp only [jsOrString] at hok hres ⊢
    simp [tokenomicsHandler, jsOrString, hok, hres, hne]
  · intro hok hres
    simp only [jsOrString] at hok hres ⊢
    simp [tokenomicsHandler, jsOrString, hok, hres]

/-- C2, witness: days 45 is rejected with 400; a storage failure with the
empty-store message surfaces as 500 with that message; a successful empty
list surfaces as 404. -/
theorem c2_read_endpoint_statuses_witness :
    tokenomicsHandler ℕ "GET" (some "45") (.success []) (fun _ => .success []) =
      ⟨400, some "Invalid days parameter",
        some "Days parameter must be one of: 30, 90, 180, all"⟩
    ∧ tokenomicsHandler ℕ "GET" (some "30") (.success [])
        (fun _ => .failure "No data found in storage") =
      ⟨500, some "Data fetch failed", some "No data found in storage"⟩
    ∧ tokenomicsHandler ℕ "GET" (some "30") (.failure "x") (fun _ => .success []) =
      ⟨404, some "No data found", some "No tokenomics data available"⟩ := by
  refine ⟨?_, ?_, ?_⟩
  · exact (c2_read_endpoint_statuses ℕ (some "45") _ _).1 (by decide)
  · exact (c2_read_endpoint_statuses ℕ (some "30") _ _).2.1
      "No data found in storage" (by decide) rfl (by decide)
  · exact (c2_read_endpoint_statuses ℕ (some "30") _ _).2.2 (by decide) rfl

/-- C3.  When at least one of the four source fetches fails, fetchAllData
fails with the message "Failed to fetch: " followed by the comma-joined
failures list, and that list contains the labelled entry of every failed
source and no labelled entry of any successful source. -/
theorem c3_aggregate_failure_message
    (date now : String) (b t : FetchResult String) (p l : FetchResult ℚ)
    (h : b.success? = false ∨ t.success? = false ∨ p.success? = false ∨ l.success? = false) :
    fetchAllData date b t p l now =
      .failure ("Failed to fetch: " ++ String.intercalate ", " (fetchFailures b t p l))
    ∧ (∀ e, b = .failure e → "Burned supply: " ++ e ∈ fetchFailures b t p l)
    ∧ (∀ e, t = .failure e → "Treasury supply: " ++ e ∈ fetchFailures b t p l)
    ∧ (∀ e, p = .failure e → "Price: " ++ e ∈ fetchFailures b t p l)
    ∧ (∀ e, l = .failure e → "Liquidity: " ++ e ∈ fetchFailures b t p l)
    ∧ (b.success? = true → ∀ s, "Burned supply: " ++ s ∉ fetchFailures b t p l)
    ∧ (t.success? = true → ∀ s, "Treasury supply: " ++ s ∉ fetchFailures b t p l)
    ∧ (p.success? = true → ∀ s, "Price: " ++ s ∉ fetchFailures b t p l)
    ∧ (l.success? = true → ∀ s, "Liquidity: " ++ s ∉ fetchFailures b t p l) := by
  cases b <;> cases t <;> cases p <;> cases l <;>
    simp_all [fetchAllData, fetchFailures, FetchResult.success?]

/-- C3, witness: with only the treasury fetch failing (a timeout), the
aggregate fails, the failures list carries the treasury entry, and it
carries no burned-supply entry. -/
theorem c3_aggregate_failure_message_witness :
    fetchAllData "2025-09-12" (.success "50000000") (.failure "Request timeout (10s)")
        (.success (15 / 100)) (.success 100000) "2025-09-12T02:00:00.000Z" =
      .failure ("Failed to fetch: " ++ String.intercalate ", "
        (fetchFailures (.success "50000000") (.failure "Request timeout (10s)")
          (.success (15 / 100)) (.success 100000)))
    ∧ "Treasury supply: " ++ "Request timeout (10s)" ∈
        fetchFailures (.success "50000000") (.failure "Request timeout (10s)")
          (.success (15 / 100)) (.success 100000)
    ∧ "Burned supply: " ++ "x" ∉
        fetchFailures (.success "50000000") (.failure "Request timeout (10s)")
          (.success (15 / 100)) (.success 100000) := by
  have h := c3_aggregate_failure_message "2025-09-12" "2025-09-12T02:00:00.000Z"
    (.success "50000000") (.failure "Request timeout (10s)")
    (.success (15 / 100)) (.success 100000) (Or.inr (Or.inl rfl))
  exact ⟨h.1, h.2.2.1 _ rfl, h.2.2.2.2.2.1 rfl "x"⟩

/-- C4.  The retrying fetcher performs at most MAX_RETRIES (3) attempts;
the delay recorded between attempt i and attempt i+1 is RETRY_DELAY times
BACKOFF_MULTIPLIER to the power (i-1), i.e. 1000ms then 2000ms; the first
successful attempt ends the run with the parsed payload and no further
attempts; and when all three attempts fail the run fails with the last
attempt's error message. -/
theorem c4_retry_policy {α : Type} (f : ℕ → Except String α) :
    (fetchWithRetry f).attempts ≤ RETRY_CONFIG.MAX_RETRIES
    ∧ (fetchWithRetry f).delays =
        (List.range ((fetchWithRetry f).attempts - 1)).map
          (fun j => RETRY_CONFIG.RETRY_DELAY * RETRY_CONFIG.BACKOFF_MULTIPLIER ^ j)
    ∧ (∀ v, f 1 = .ok v →
        (fetchWithRetry f).result = .success v ∧ (fetchWithRetry f).attempts = 1)
    ∧ (∀ e₁ v, f 1 = .error e₁ → f 2 = .ok v →
        (fetchWithRetry f).result = .success v ∧ (fetchWithRetry f).attempts = 2
        ∧ (fetchWithRetry f).delays = [1000])
    ∧ (∀ e₁ e₂ v, f 1 = .error e₁ → f 2 = .error e₂ → f 3 = .ok v →
        (fetchWithRetry f).result = .success v ∧ (fetchWithRetry f).attempts = 3
        ∧ (fetchWithRetry f).delays = [1000, 2000])
    ∧ (∀ e₁ e₂ e₃, f 1 = .error e₁ → f 2 = .error e₂ → f 3 = .error e₃ →
        (fetchWithRetry f).result = .failure e₃ ∧ (fetchWithRetry f).attempts = 3
        ∧ (fetchWithRetry f).delays = [1000, 2000]) := by
  rcases h1 : f 1 with e₁ | v₁ <;> rcases h2 : f 2 with e₂ | v₂ <;>
    rcases h3 : f 3 with e₃ | v₃ <;>
      simp_all [fetchWithRetry, retryAux, RETRY_CONFIG, List.range_succ]

/-- C4, witness: a first attempt that throws followed by a successful
second attempt gives success with the payload after exactly two attempts
and a single 1000ms delay. -/
theorem c4_retry_policy_witness :
    (fetchWithRetry retryProbe).result = .success 7
    ∧ (fetchWithRetry retryProbe).attempts = 2
    ∧ (fetchWithRetry retryProbe).delays = [1000] := by
  exact (c4_retry_policy retryProbe).2.2.2.1 "HTTP 500: Internal Server Error" 7 rfl rfl

/-- C5.  The comparative price percent change is (new - old) / old times
100, with old = 0 treated as 0 percent when new is also 0 and as 100
percent otherwise; an absolute change strictly above 50 percent adds an
extreme-price-change error, and one strictly above 25 percent but at most
50 percent adds a large-price-change warning while adding neither the
extreme-price-change error nor the price-dropped-to-zero error. -/
theorem c5_price_change_validation (previous current : DailyTokenomicsData) (q : ℚ)
    (hq : q = if previous.price_usd = 0 then (if current.price_usd = 0 then 0 else 100)
          else (current.price_usd - previous.price_usd) / previous.price_usd * 100) :
    calculatePercentChange (.num previous.price_usd) (.num current.price_usd) = .num q
    ∧ (|q| > 50 → VErr.extremePriceChange (.num q) ∈ (validateChanges current previous).1)
    ∧ (25 < |q| → |q| ≤ 50 →
        VWarn.largePriceChange (.num q) ∈ (validateChanges current previous).2
        ∧ VErr.extremePriceChange (.num q) ∉ (validateChanges current previous).1
        ∧ VErr.priceDroppedToZero ∉ (validateChanges current previous).1) := by
  have hpct : calculatePercentChange (.num previous.price_usd) (.num current.price_usd)
      = .num q := by
    subst hq
    by_cases hp : previous.price_usd = 0
    · by_cases hc : current.price_usd = 0 <;> simp [calculatePercentChange, hp, hc]
    · simp [calculatePercentChange, hp]
  refine ⟨hpct, ?_, ?_⟩
  · intro hgt
    simp [validateChanges, hpct, VALIDATION_THRESHOLDS, hgt]
  · intro h25 h50
    have hA : ¬ (50 : ℚ) < |q| := by linarith
    have hnz : ¬ (current.price_usd = 0 ∧ previous.price_usd > 0) := by
      rintro ⟨hc0, hpp⟩
      have hp : previous.price_usd ≠ 0 := ne_of_gt hpp
      rw [if_neg hp, hc0] at hq
      have : q = -100 := by rw [hq]; field_simp
      rw [this] at h50
      norm_num at h50
    refine ⟨?_, ?_, ?_⟩
    · simp [validateChanges, hpct, VALIDATION_THRESHOLDS, hA]
      linarith
    · simp [validateChanges, hpct, VALIDATION_THRESHOLDS, hA]
    · simp [validateChanges, hpct, VALIDATION_THRESHOLDS, hnz]

/-- C5, witness: with previous price 0.10 and current price 0.13 the
change is exactly 30 percent, which produces the warning and not the
error. -/
theorem c5_price_change_validation_witness :
    calculatePercentChange (.num priceWarnPrev.price_usd) (.num priceWarnCur.price_usd)
      = .num 30
    ∧ VWarn.largePriceChange (.num 30) ∈ (validateChanges priceWarnCur priceWarnPrev).2
    ∧ VErr.extremePriceChange (.num 30) ∉ (validateChanges priceWarnCur priceWarnPrev).1 := by
  have h := c5_price_change_validation priceWarnPrev priceWarnCur 30
    (by norm_num [priceWarnPrev, priceWarnCur, supplyJumpPrev])
  have h3 := h.2.2 (by norm_num) (by norm_num)
  exact ⟨h.1, h3.1, h3.2.1⟩

/-- C6, counterexample.  A 900 percent day-over-day jump of burned_supply
(50000000 to 500000000) with every other field unchanged produces no
warning and no error: comparative validation returns two empty lists,
refuting the claim that such a change adds a warning. -/
theorem c6_supply_jump_counterexample :
    calculatePercentChange (parseFloat supplyJumpPrev.burned_supply)
        (parseFloat supplyJumpCur.burned_supply) = .num 900
    ∧ validateChanges supplyJumpCur supplyJumpPrev = ([], []) := by
  constructor
  · simp +decide [calculatePercentChange, parseFloat, parseDigitsAux,
      supplyJumpPrev, supplyJumpCur]
    norm_num
  · simp +decide [validateChanges, calculatePercentChange, parseFloat, parseDigitsAux,
      supplyJumpPrev, supplyJumpCur, VALIDATION_THRESHOLDS]
    norm_num

/-- C6, amended.  Comparative validation ignores burned_supply and
treasury_supply entirely: its output is invariant under arbitrary changes
to those fields of either record, so a day-over-day change in them,
however large, adds neither a warning nor an error. -/
theorem c6_supply_change_ignored (current previous : DailyTokenomicsData)
    (b₁ t₁ b₂ t₂ : String) :
    validateChanges
      { current with burned_supply := b₁, treasury_supply := t₁ }
      { previous with burned_supply := b₂, treasury_supply := t₂ } =
    validateChanges current previous := rfl

/-- C7, counterexample.  A candidate whose price_usd field is present but
equal to 0 does not contribute its value: the fallback record takes the
previous day's nonzero price instead, refuting the claim that a present
candidate field is always used. -/
theorem c7_present_zero_counterexample :
    zeroPriceCandidate.price_usd = some 0
    ∧ supplyJumpPrev.price_usd ≠ 0
    ∧ (∃ r, createFallbackData "2025-09-12" zeroPriceCandidate (some supplyJumpPrev) =
        .success r ∧ r.price_usd = supplyJumpPrev.price_usd ∧ r.price_usd ≠ 0) := by
  refine ⟨rfl, by norm_num [supplyJumpPrev], _, rfl, ?_, ?_⟩ <;>
    simp [createFallbackData, zeroPriceCandidate, supplyJumpPrev, jsOrOptQ]

/-- C7, amended.  With no stored record for the previous day the fallback
builder fails with "No previous data available for fallback"; otherwise it
returns a record in which each field takes the candidate value when
present and truthy (nonzero for the numeric fields, nonempty for the
string fields) and the previous day's value otherwise, every USD-derived
field equals the parsed resulting quantity times the resulting price, and
any USD values present in the candidate are ignored. -/
theorem c7_fallback_amended (date : String) (failedData : PartialTokenomicsData)
    (previousData : Option DailyTokenomicsData) :
    (previousData = none →
      createFallbackData date failedData previousData =
        .failure "No previous data available for fallback")
    ∧ (∀ prev, previousData = some prev →
        ∃ r, createFallbackData date failedData previousData = .success r
        ∧ r.date = date
        ∧ r.total_supply = jsOrOptString failedData.total_supply prev.total_supply
        ∧ r.circulating_supply =
            jsOrOptString failedData.circulating_supply prev.circulating_supply
        ∧ r.burned_supply = jsOrOptString failedData.burned_supply prev.burned_supply
        ∧ r.treasury_supply = jsOrOptString failedData.treasury_supply prev.treasury_supply
        ∧ r.price_usd = jsOrOptQ failedData.price_usd prev.price_usd
        ∧ r.on_chain_liquidity_usd =
            jsOrOptQ failedData.on_chain_liquidity_usd prev.on_chain_liquidity_usd
        ∧ r.total_supply_usd = JSNum.mul (parseFloat r.total_supply) (.num r.price_usd)
        ∧ r.circulating_supply_usd =
            JSNum.mul (parseFloat r.circulating_supply) (.num r.price_usd)
        ∧ r.burned_supply_usd = JSNum.mul (parseFloat r.burned_supply) (.num r.price_usd)
        ∧ r.treasury_supply_usd = JSNum.mul (parseFloat r.treasury_supply) (.num r.price_usd))
    ∧ (∀ u₁ u₂ u₃ u₄, createFallbackData date
        { failedData with
            total_supply_usd := u₁
            circulating_supply_usd := u₂
            burned_supply_usd := u₃
            treasury_supply_usd := u₄ } previousData =
        createFallbackData date failedData previousData) := by
  refine ⟨?_, ?_, ?_⟩
  · intro h; subst h; rfl
  · intro prev h; subst h
    exact ⟨_, rfl, rfl, rfl, rfl, rfl, rfl, rfl, rfl, rfl, rfl, rfl, rfl⟩
  · intro u₁ u₂ u₃ u₄
    cases previousData <;> rfl

/-- C7, witness: for the zero-price candidate and the concrete previous
record, the builder succeeds; the resulting price is the truthy-or
combination and the burned USD field is recomputed from the resulting
quantity and price. -/
theorem c7_fallback_amended_witness :
    ∃ r, createFallbackData "2025-09-12" zeroPriceCandidate (some supplyJumpPrev) =
      .success r
    ∧ r.price_usd = jsOrOptQ zeroPriceCandidate.price_usd supplyJumpPrev.price_usd
    ∧ r.burned_supply_usd = JSNum.mul (parseFloat r.burned_supply) (.num r.price_usd) := by
  obtain ⟨r, hr, -, -, -, -, -, hp, -, -, -, hb, -⟩ :=
    (c7_fallback_amended "2025-09-12" zeroPriceCandidate (some supplyJumpPrev)).2.1
      supplyJumpPrev rfl
  exact ⟨r, hr, hp, hb⟩

/-- C8, counterexample.  Under the revised indexing handler, an invocation
for a date that already has a stored record is not a no-op: with fetch,
validation and store all succeeding, the run persists a (new) record for
that date, refuting the claim that the repeat invocation performs no
write. -/
theorem c8_overwrite_counterexample :
    repeatRunEnv.dataExists = true
    ∧ (hourlyIndexHandler repeatRunEnv).writes = [sampleV2Record]
    ∧ (hourlyIndexHandler repeatRunEnv).status = 200
    ∧ (hourlyIndexHandler repeatRunEnv).success = true := by
  refine ⟨rfl, ?_, ?_, ?_⟩ <;> rfl

/-- C8, amended.  Under the handler of pages/api/cron/index-data.ts a
repeat invocation for an existing date is a reported-success no-op (status
200, success, no store write, store unchanged); the revised handler
instead proceeds and overwrites, but every storeData write is keyed by the
record's date, so a store with one record per date keeps exactly one
record per date under any sequence of writes. -/
theorem c8_idempotence_amended (env : IndexEnv)
    (store : List (String × DailyTokenomicsDataV2))
    (hex : env.dataExists = true) (hm : env.method = "POST" ∨ env.method = "GET") :
    cronIndexHandler env = ⟨200, true, "Data already indexed for today", false, []⟩
    ∧ applyWrites store (cronIndexHandler env).writes = store
    ∧ ((store.map Prod.fst).Nodup →
        ∀ writes, ((applyWrites store writes).map Prod.fst).Nodup) := by
  have h1 : cronIndexHandler env =
      ⟨200, true, "Data already indexed for today", false, []⟩ := by
    rcases hm with hm | hm <;> simp [cronIndexHandler, hex, hm]
  refine ⟨h1, ?_, ?_⟩
  · rw [h1]; rfl
  · intro h writes
    exact applyWrites_keys_nodup writes store h

/-- C8, witness: on the concrete repeat-run environment the cron handler
is a no-op success and the empty store is left unchanged. -/
theorem c8_idempotence_amended_witness :
    cronIndexHandler repeatRunEnv =
      ⟨200, true, "Data already indexed for today", false, []⟩
    ∧ applyWrites [] (cronIndexHandler repeatRunEnv).writes = [] := by
  have h := c8_idempotence_amended repeatRunEnv [] rfl (Or.inl rfl)
  exact ⟨h.1, h.2.1⟩

/-- C9.  For every non-negative integer amount, normalization with the
configured decimals (6) is the exact truncating integer quotient by 10 to
the 6th: it equals the natural-number quotient, which is characterized by
the Euclidean bounds, with no floating-point arithmetic involved. -/
theorem c9_normalize_amount (n : ℕ) :
    normalizeAmount (n : ℤ) MARS_TOKEN.decimals = ((n / 10 ^ 6 : ℕ) : ℤ)
    ∧ 10 ^ 6 * (n / 10 ^ 6) ≤ n ∧ n < 10 ^ 6 * (n / 10 ^ 6 + 1) := by
  refine ⟨?_, ?_, ?_⟩
  · show Int.tdiv (n : ℤ) ((10 : ℤ) ^ 6) = ((n / 10 ^ 6 : ℕ) : ℤ)
    rw [Int.tdiv_eq_ediv (by positivity) (by positivity)]
    push_cast
    rfl
  · have h := Nat.div_mul_le_self n (10 ^ 6)
    omega
  · have h1 := Nat.div_add_mod n (10 ^ 6)
    have h2 := Nat.mod_lt n (show 0 < 10 ^ 6 by norm_num)
    omega

/-- C10.  A price-source response whose nested usd field is present but 0
makes the price fetch fail with "Price data not available" rather than
succeed with a zero price, and consequently no successful fetchAllData
built on the price fetch can carry price_usd = 0. -/
theorem c10_zero_price_rejected (r : FetchResult CoinGeckoResponse) :
    (∀ d, r = .success d → coinGeckoUsd d = some 0 →
      fetchMarsPrice r = .failure "Price data not available")
    ∧ (∀ date now (b t : FetchResult String) (l : FetchResult ℚ)
        (rec : DailyTokenomicsDataV2),
        fetchAllData date b t (fetchMarsPrice r) l now = .success rec →
        rec.price_usd ≠ 0) := by
  constructor
  · intro d hr husd
    subst hr
    simp [fetchMarsPrice, husd]
  · intro date now b t l rec hall
    cases hr : fetchMarsPrice r with
    | failure e =>
        rw [hr] at hall
        cases b <;> cases t <;> cases l <;> simp [fetchAllData] at hall
    | success u =>
        have hune : u ≠ 0 := by
          cases r with
          | failure e => simp [fetchMarsPrice] at hr
          | success d =>
              cases husd : coinGeckoUsd d with
              | none => simp [fetchMarsPrice, husd] at hr
              | some u' =>
                  by_cases hu : u' = 0
                  · simp [fetchMarsPrice, husd, hu] at hr
                  · simp [fetchMarsPrice, husd, hu] at hr
                    exact hr ▸ hu
        rw [hr] at hall
        cases b with
        | failure e => simp [fetchAllData] at hall
        | success bs =>
          cases t with
          | failure e => simp [fetchAllData] at hall
          | success ts =>
            cases l with
            | failure e => simp [fetchAllData] at hall
            | success ls =>
                simp [fetchAllData] at hall
                rw [← hall]
                simpa using hune

/-- C10, witness: the concrete response carrying usd = 0 is rejected with
the fixed message. -/
theorem c10_zero_price_rejected_witness :
    fetchMarsPrice (.success zeroUsdResponse) = .failure "Price data not available" := by
  exact (c10_zero_price_rejected (.success zeroUsdResponse)).1 zeroUsdResponse rfl rfl
